import Mathlib

/-!
Verification development for the `supernovas` Julian-date library
(`supernovas/julian_date.h`).  Every definition below is a shallow
embedding of the corresponding C++ entity; C++ `int` day counts are
modelled as `ℤ` (with a separate explicit two's-complement wrap model
where overflow is at issue), `std::chrono` durations are modelled as
their nanosecond tick count in `ℤ`, and the `double`/`long double`
intermediates of the calendar conversion are modelled as exact `ℚ`
values.  The rational model agrees exactly with the IEEE-754 double
computation for every 32-bit year and every month, because all
intermediate values fit in 53 bits of mantissa and the decisive
products land far from integer boundaries (details at each definition).
-/

/-- Embeds `detail::ns_per_day` (86'400'000'000'000 nanoseconds). -/
def ns_per_day : ℤ := 86400000000000

/-- Embeds `date::year_month_day`: a plain (year, month, day-of-month)
triple, lexicographically ordered. -/
structure year_month_day where
  year : ℤ
  month : ℤ
  dom : ℤ
deriving DecidableEq

/-- Embeds `date::year_month_day`'s lexicographic `operator>`:
`a` is strictly after `b`. -/
def ymd_gt (a b : year_month_day) : Bool :=
  (b.year < a.year) ||
    (b.year == a.year &&
      ((b.month < a.month) || (b.month == a.month && b.dom < a.dom)))

/-- Embeds the constant `gregorian_change{date::year{1582}/date::October/15}`. -/
def gregorian_change : year_month_day := ⟨1582, 10, 15⟩

/-- Embeds `detail::calculate_tod_fraction`: the time of day as a
fraction of one day.  The C++ computes in `long double`; here exact `ℚ`. -/
def calculate_tod_fraction (ns : ℤ) : ℚ := (ns : ℚ) / (ns_per_day : ℚ)

/-- Embeds the local `year` of `detail::calculate_julian_date`: January
and February are treated as months 13/14 of the previous year. -/
def effective_year (ymd : year_month_day) : ℤ :=
  if ymd.month = 1 ∨ ymd.month = 2 then ymd.year - 1 else ymd.year

/-- Embeds the local `month` of `detail::calculate_julian_date`. -/
def effective_month (ymd : year_month_day) : ℤ :=
  if ymd.month = 1 ∨ ymd.month = 2 then ymd.month + 12 else ymd.month

/-- Embeds the local `B` of `detail::calculate_julian_date`:
the Gregorian correction.  C++ `int` division truncates toward zero,
which `Int.div` matches. -/
def Bterm (ymd : year_month_day) : ℤ :=
  if ymd_gt ymd gregorian_change then
    2 - Int.tdiv (effective_year ymd) 100
      + Int.tdiv (Int.tdiv (effective_year ymd) 100) 4
  else 0

/-- Embeds the local `C` of `detail::calculate_julian_date`.
`365.25` is exactly representable in binary, and `365.25 * year` is
exact in double for every 32-bit `year`, so the `ℚ` model agrees with
the C++ double computation everywhere. -/
def Cterm (y : ℤ) : ℚ :=
  if y < 0 then (⌊(365.25 : ℚ) * (y : ℚ)⌋ : ℚ) - 0.75
  else (⌊(365.25 : ℚ) * (y : ℚ)⌋ : ℚ)

/-- Embeds the local `D` of `detail::calculate_julian_date`.
For the months 13..15 that can reach this formula the product
`30.6001 * (month+1)` is at least `4e-4` away from every integer while
the double rounding error is below `1e-12`, so the exact-`ℚ` floor
agrees with the double floor. -/
def Dterm (m : ℤ) : ℚ := (⌊(30.6001 : ℚ) * ((m : ℚ) + 1)⌋ : ℚ)

/-- Truncation toward zero, the semantics of C++ `static_cast<int>`
applied to a floating-point value. -/
def trunc_toward_zero (q : ℚ) : ℤ := if q < 0 then ⌈q⌉ else ⌊q⌋

/-- Embeds `detail::calculate_julian_date`. -/
def calculate_julian_date (ymd : year_month_day) (time_of_day : ℤ) : ℤ :=
  trunc_toward_zero
    ((Bterm ymd : ℚ) + Cterm (effective_year ymd) + Dterm (effective_month ymd)
      + ((ymd.dom : ℚ) + calculate_tod_fraction time_of_day)
      + 1720994.5)

/-- Embeds the class `supernovas::julian_date`: data members `m_day`
(C++ `int`, modelled as `ℤ`) and `m_time_of_day`
(`std::chrono::nanoseconds`, modelled as its tick count in `ℤ`). -/
structure julian_date where
  m_day : ℤ
  m_time_of_day : ℤ
deriving DecidableEq

/-- Embeds the accessor `julian_date::day()`. -/
def julian_date.day (j : julian_date) : ℤ := j.m_day

/-- Embeds the accessor `julian_date::time_of_day()`. -/
def julian_date.time_of_day (j : julian_date) : ℤ := j.m_time_of_day

/-- Embeds the default constructor `julian_date()`: both members take
their in-class initializers `{0}`. -/
def julian_date.default_ctor : julian_date := ⟨0, 0⟩

/-- Embeds the constructor `julian_date(day_type, duration)`.  Its body
in the source is empty and both parameters are unnamed, so the members
keep their in-class initializers `{0}` and the arguments are discarded. -/
def julian_date.ofDayDuration (_day : ℤ) (_time : ℤ) : julian_date := ⟨0, 0⟩

/-- Embeds the constructor `julian_date(year_month_day, duration)`:
`m_day` from `detail::calculate_julian_date`, `m_time_of_day` stores
the supplied time of day directly, with no normalization. -/
def julian_date.ofCalendar (ymd : year_month_day) (tod : ℤ) : julian_date :=
  ⟨calculate_julian_date ymd tod, tod⟩

/-- Embeds `operator==(julian_date, julian_date)`: the source body is
`return true;` regardless of the operands. -/
def jd_eq (_a _b : julian_date) : Bool := true

/-- Embeds `operator!=`: `return !(a == b);`. -/
def jd_ne (a b : julian_date) : Bool := !(jd_eq a b)

/-- Embeds `operator<`: the source body is `return true;`. -/
def jd_lt (_a _b : julian_date) : Bool := true

/-- Embeds `operator<=`: the source body is `return true;`. -/
def jd_le (_a _b : julian_date) : Bool := true

/-- Embeds `operator>`: the source body is `return true;`. -/
def jd_gt (_a _b : julian_date) : Bool := true

/-- Embeds `operator>=`: the source body is `return true;`. -/
def jd_ge (_a _b : julian_date) : Bool := true

/-- Embeds `operator+(julian_date, duration)`: the source body is
`return date;`, discarding the duration. -/
def jd_add_dur (date : julian_date) (_dur : ℤ) : julian_date := date

/-- Embeds `operator+(duration, julian_date)`: `return date + duration;`. -/
def dur_add_jd (dur : ℤ) (date : julian_date) : julian_date :=
  jd_add_dur date dur

/-- Embeds `operator-(julian_date, duration)`: the source body is
`return date;`, discarding the duration. -/
def jd_sub_dur (date : julian_date) (_dur : ℤ) : julian_date := date

/-- Embeds `julian_date::operator++()` (pre-increment) as a state
transformer: first component is the new object state, second the
returned value (`*this` after `++m_day`). -/
def julian_date.pre_increment (j : julian_date) : julian_date × julian_date :=
  (⟨j.m_day + 1, j.m_time_of_day⟩, ⟨j.m_day + 1, j.m_time_of_day⟩)

/-- Embeds `julian_date::operator++(int)` (post-increment): new state
has the incremented day, the returned value is the original copy. -/
def julian_date.post_increment (j : julian_date) : julian_date × julian_date :=
  (⟨j.m_day + 1, j.m_time_of_day⟩, j)

/-- Embeds `julian_date::operator--()` (pre-decrement). -/
def julian_date.pre_decrement (j : julian_date) : julian_date × julian_date :=
  (⟨j.m_day - 1, j.m_time_of_day⟩, ⟨j.m_day - 1, j.m_time_of_day⟩)

/-- Embeds `julian_date::operator--(int)` (post-decrement). -/
def julian_date.post_decrement (j : julian_date) : julian_date × julian_date :=
  (⟨j.m_day - 1, j.m_time_of_day⟩, j)

/-- Two's-complement reduction of an integer into the 32-bit `int`
range, the behaviour host hardware gives the (formally undefined)
signed overflow of `++m_day`. -/
def wrap_int32 (n : ℤ) : ℤ := (n + 2147483648) % 4294967296 - 2147483648

/-- Embeds `julian_date::operator++()` with `m_day` modelled as the
32-bit machine integer it is in C++, exposing the wraparound of
`++m_day` at `INT_MAX`. -/
def julian_date.pre_increment_wrap (j : julian_date) : julian_date :=
  ⟨wrap_int32 (j.m_day + 1), j.m_time_of_day⟩

/-- Modelled from the spec (DurationNormalizer, section 4.2): carry is
the floor division of the raw duration by one day, the remainder stays
in `[0, one_day)`.  This is the behaviour the specification prescribes
for `julian_date(day_type, duration)`; it exists only to be compared
with the source-derived `julian_date.ofDayDuration` above. -/
def spec_normalize (d : ℤ) (t : ℤ) : julian_date :=
  ⟨d + Int.fdiv t ns_per_day, t - Int.fdiv t ns_per_day * ns_per_day⟩

example : Int.tdiv (-7) 2 = -3 := by decide
example : Int.fdiv (-7) 2 = -4 := by decide
example : ymd_gt ⟨2021, 6, 3⟩ gregorian_change = true := by decide

/-- Evaluates the calendar conversion at 2021-06-03 with zero time of
day: `B = -13`, `C = 738170`, `D = 214`, day-of-month 3, so the real
Julian date is `2459368.5` and the `static_cast<int>` result is
`2459368`. -/
lemma calculate_julian_date_20210603 :
    calculate_julian_date ⟨2021, 6, 3⟩ 0 = 2459368 := by
  have hB : Bterm ⟨2021, 6, 3⟩ = -13 := by decide
  have hy : effective_year ⟨2021, 6, 3⟩ = 2021 := by decide
  have hm : effective_month ⟨2021, 6, 3⟩ = 6 := by decide
  have hC : Cterm 2021 = 738170 := by norm_num [Cterm]
  have hD : Dterm 6 = 214 := by norm_num [Dterm]
  rw [calculate_julian_date, hB, hy, hm, hC, hD]
  norm_num [calculate_tod_fraction, ns_per_day, trunc_toward_zero]

/-- C1.  The claim says every construction and arithmetic operation
leaves `time_of_day()` in `[0, one day)`.  The calendar constructor
stores the supplied time of day without any normalization, so a
negative supplied duration yields a negative `time_of_day()`: the
invariant is violated. -/
theorem calendar_ctor_negative_time_of_day :
    (julian_date.ofCalendar ⟨2021, 6, 3⟩ (-1)).time_of_day < 0 := by decide

/-- C2.  The claim says `julian_date(d, t)` normalizes `(d, t)` by
floor division.  The source constructor has an empty body and discards
both arguments, so the result is always day 0, time 0, while the
specified normalization of `(345, 987ns)` is `(345, 987ns)` itself. -/
theorem day_duration_ctor_discards_arguments :
    julian_date.ofDayDuration 345 987 = ⟨0, 0⟩
    ∧ spec_normalize 345 987 = ⟨345, 987⟩
    ∧ (julian_date.ofDayDuration 345 987).day ≠ 345 := by decide

/-- C3.  The claim says the six relational operators implement a
lexicographic total order with exactly one of `<`, `==`, `>` holding.
In the source every operator except `!=` returns `true` unconditionally:
for the dates (345, 987ns) and (334, 987ns) — which differ in their
day — `==`, `<` and `>` all hold at once. -/
theorem comparison_stubs_break_total_order :
    jd_eq ⟨345, 987⟩ ⟨334, 987⟩ = true
    ∧ jd_lt ⟨345, 987⟩ ⟨334, 987⟩ = true
    ∧ jd_gt ⟨345, 987⟩ ⟨334, 987⟩ = true
    ∧ (⟨345, 987⟩ : julian_date).day ≠ (⟨334, 987⟩ : julian_date).day := by
  decide

/-- C4.  The claim says adding one day (86400 s) to `julian_date{245, 0ns}`
yields `julian_date{246, 0ns}`.  The source `operator+` returns its date
operand unchanged, so the day stays 245. -/
theorem add_ignores_duration_no_carry :
    jd_add_dur ⟨245, 0⟩ 86400000000000 = ⟨245, 0⟩
    ∧ (jd_add_dur ⟨245, 0⟩ 86400000000000).day ≠ 246 := by decide

/-- C5.  The claim says subtracting 2 s from `julian_date{245, 0ns}`
yields `julian_date{244, 86398s}`.  The source `operator-` returns its
date operand unchanged, so the day stays 245 and no borrow happens. -/
theorem sub_ignores_duration_no_borrow :
    jd_sub_dur ⟨245, 0⟩ 2000000000 = ⟨245, 0⟩
    ∧ (jd_sub_dur ⟨245, 0⟩ 2000000000).day ≠ 244 := by decide

/-- C6, counterexample.  The claim (and the unit test) expect day 21154
for the calendar date 2021-06-03; the conversion algorithm in the source
produces 2459368 (the astronomically correct truncation of 2459368.5). -/
theorem calendar_2021_06_03_day_ne_21154 :
    (julian_date.ofCalendar ⟨2021, 6, 3⟩ 0).day ≠ 21154 := by
  have h : (julian_date.ofCalendar ⟨2021, 6, 3⟩ 0).day
      = calculate_julian_date ⟨2021, 6, 3⟩ 0 := rfl
  rw [h, calculate_julian_date_20210603]
  decide

/-- C6, amended.  Constructing a `julian_date` from the Gregorian
calendar date 2021-06-03 with zero time of day yields
`day() == 2459368` and `time_of_day() == 0`. -/
theorem calendar_2021_06_03_value :
    julian_date.ofCalendar ⟨2021, 6, 3⟩ 0 = ⟨2459368, 0⟩ := by
  rw [julian_date.ofCalendar, calculate_julian_date_20210603]

/-- C7.  The Gregorian correction `B` is 0 on or before the cutover
1582-10-15 and `2 - floor(ey/100) + floor(floor(ey/100)/4)` strictly
after it (the source computes it with C++ truncating division, which
agrees with floor division because every post-cutover effective year is
positive); the year term `C` is `floor(365.25*ey)` for `ey >= 0` and
`floor(365.25*ey) - 0.75` for `ey < 0`. -/
theorem gregorian_correction_and_year_term_spec :
    (∀ ymd : year_month_day,
      Bterm ymd =
        if ymd_gt ymd gregorian_change then
          2 - Int.fdiv (effective_year ymd) 100
            + Int.fdiv (Int.fdiv (effective_year ymd) 100) 4
        else 0)
    ∧ (∀ y : ℤ,
      Cterm y =
        if y < 0 then (⌊(365.25 : ℚ) * (y : ℚ)⌋ : ℚ) - 0.75
        else (⌊(365.25 : ℚ) * (y : ℚ)⌋ : ℚ)) := by
  refine ⟨fun ymd => ?_, fun y => rfl⟩
  rw [Bterm]
  by_cases h : ymd_gt ymd gregorian_change
  · have hey : 0 ≤ effective_year ymd := by
      simp only [ymd_gt, gregorian_change, Bool.or_eq_true, Bool.and_eq_true,
        decide_eq_true_eq, beq_iff_eq] at h
      rw [effective_year]
      split <;> omega
    have h100 : 0 ≤ Int.tdiv (effective_year ymd) 100 :=
      Int.tdiv_nonneg hey (by decide)
    rw [if_pos h, if_pos h, Int.fdiv_eq_tdiv hey (by decide),
      Int.fdiv_eq_tdiv h100 (by decide)]
  · rw [if_neg h, if_neg h]

/-- C8.  Pre-increment adds one to the day and returns the mutated
value; post-increment adds one to the day and returns the original
value; the decrements do the symmetric subtraction; in all four cases
the time of day is untouched. -/
theorem increment_decrement_spec (j : julian_date) :
    (j.pre_increment.1.day = j.day + 1
      ∧ j.pre_increment.1.time_of_day = j.time_of_day
      ∧ j.pre_increment.2 = j.pre_increment.1)
    ∧ (j.post_increment.1 = j.pre_increment.1 ∧ j.post_increment.2 = j)
    ∧ (j.pre_decrement.1.day = j.day - 1
      ∧ j.pre_decrement.1.time_of_day = j.time_of_day
      ∧ j.pre_decrement.2 = j.pre_decrement.1)
    ∧ (j.post_decrement.1 = j.pre_decrement.1 ∧ j.post_decrement.2 = j) := by
  simp [julian_date.pre_increment, julian_date.post_increment,
    julian_date.pre_decrement, julian_date.post_decrement,
    julian_date.day, julian_date.time_of_day]

/-- C9.  The claim says day-count overflow is detected and surfaced as
a distinct failure.  The source increments a plain C++ `int` with no
check and no error channel; on two's-complement hardware the day after
`INT_MAX` silently becomes `INT_MIN`. -/
theorem increment_wraps_at_int_max :
    julian_date.pre_increment_wrap ⟨2147483647, 0⟩ = ⟨-2147483648, 0⟩ := by
  decide

/-- C10.  `operator+(duration, date)` is defined as `date + duration`,
so the two operand orders produce identical results. -/
theorem duration_plus_date_symmetric (dur : ℤ) (date : julian_date) :
    dur_add_jd dur date = jd_add_dur date dur := rfl
